import Mathlib

/-!
Shallow embedding of the `ticket_api` FastAPI application
(`src/ticket-api/app.py`) together with proofs settling the frozen claims
about its specification.  Pure pieces of the Python code (date parsing,
query construction, rate-limiter arithmetic) become Lean functions; the
database collaborator is modelled as an in-memory list of rows with a
uniqueness constraint on `ticket_number`, as the spec assigns the store the
role of an external collaborator enforcing that invariant.
-/

deriving instance DecidableEq for Except

namespace TicketApi

/-! ## Small string utilities -/

/-- Lower-case every character of a string (ASCII case folding, which is
what both Python `str.lower` on the month abbreviations and SQL `ILIKE`
use on the plain-ASCII data involved here). -/
def lowerStr (s : String) : String :=
  String.mk (s.data.map Char.toLower)

/-- Does `pat` occur at the head of `hay`? -/
def startsWithSeq : List Char → List Char → Bool
  | [], _ => true
  | _ :: _, [] => false
  | a :: as, b :: bs => a == b && startsWithSeq as bs

/-- Does `pat` occur contiguously anywhere inside `hay`? -/
def occursIn (pat : List Char) : List Char → Bool
  | [] => pat.isEmpty
  | c :: rest => startsWithSeq pat (c :: rest) || occursIn pat rest

/-- Substring containment on strings. -/
def strContains (hay pat : String) : Bool :=
  occursIn pat.data hay.data

/-- Case-insensitive substring containment: the semantics of the SQL
collaborator evaluating `column ILIKE pattern` when the pattern is a
wildcard-free needle wrapped in a pair of percent signs, as built by the
search handler. -/
def ciContains (hay pat : String) : Bool :=
  strContains (lowerStr hay) (lowerStr pat)

/-- All characters are decimal digits. -/
def allDigits (l : List Char) : Bool :=
  l.all Char.isDigit

/-- Split a character sequence on the hyphen separator (the literal
separator of the date formats handled here). -/
def splitOnDash : List Char → List (List Char)
  | [] => [[]]
  | c :: rest =>
    match splitOnDash rest with
    | [] => [[]]
    | grp :: grps =>
      if c == '-' then [] :: grp :: grps else (c :: grp) :: grps

/-- Value of a sequence of decimal digits. -/
def digitsToNat : List Char → Nat → Nat
  | [], acc => acc
  | c :: rest, acc => digitsToNat rest (acc * 10 + (c.toNat - 48))

/-! ## Calendar dates

`datetime.date` values are embedded as year/month/day triples of naturals;
the parsers below embed the `datetime.strptime` calls of the source and
the ISO parsing that pydantic applies to plain `date`-typed fields. -/

structure CalDate where
  year : Nat
  month : Nat
  day : Nat
  deriving DecidableEq, Repr

/-- Gregorian leap-year rule (as used by `datetime.date`). -/
def isLeapYear (y : Nat) : Bool :=
  (y % 4 == 0 && y % 100 != 0) || y % 400 == 0

/-- Number of days in a month (0 for an out-of-range month). -/
def daysInMonth (y m : Nat) : Nat :=
  if m == 1 || m == 3 || m == 5 || m == 7 || m == 8 || m == 10 || m == 12 then 31
  else if m == 4 || m == 6 || m == 9 || m == 11 then 30
  else if m == 2 then (if isLeapYear y then 29 else 28)
  else 0

/-- Validity check performed by the `datetime.date` constructor. -/
def validDate (y m d : Nat) : Bool :=
  1 ≤ y && y ≤ 9999 && 1 ≤ m && m ≤ 12 && 1 ≤ d && d ≤ daysInMonth y m

/-- The abbreviated month names recognised by `strptime`'s `%b`
directive (matched case-insensitively). -/
def monthAbbrevs : List String :=
  ["jan", "feb", "mar", "apr", "may", "jun",
   "jul", "aug", "sep", "oct", "nov", "dec"]

/-- Month number (1-12) from an abbreviated month name, any case. -/
def monthFromAbbrev (l : List Char) : Option Nat :=
  match monthAbbrevs.indexOf? (String.mk (l.map Char.toLower)) with
  | some i => some (i + 1)
  | none => none

/-- Parse a decimal numeral whose length lies between `lo` and `hi`
characters, the field-width discipline of a `strptime` numeric
directive. -/
def parseNatField (l : List Char) (lo hi : Nat) : Option Nat :=
  if lo ≤ l.length && l.length ≤ hi && allDigits l then
    some (digitsToNat l 0)
  else
    none

/-- `datetime.strptime(value, "%d-%b-%Y")` followed by `.date()`:
a day numeral, an abbreviated month name and a year numeral joined by
literal hyphens, producing a valid calendar date. -/
def strptimeDMonY (s : String) : Option CalDate :=
  match splitOnDash s.data with
  | [ds, ms, ys] =>
    match parseNatField ds 1 2, monthFromAbbrev ms, parseNatField ys 1 4 with
    | some d, some m, some y =>
      if validDate y m d then some ⟨y, m, d⟩ else none
    | _, _, _ => none
  | _ => none

/-- `datetime.strptime(value, "%Y-%m-%d")` followed by `.date()`, as used
by the get-by-date handler on its path parameter. -/
def strptimeYMD (s : String) : Option CalDate :=
  match splitOnDash s.data with
  | [ys, ms, ds] =>
    match parseNatField ys 1 4, parseNatField ms 1 2, parseNatField ds 1 2 with
    | some y, some m, some d =>
      if validDate y m d then some ⟨y, m, d⟩ else none
    | _, _, _ => none
  | _ => none

/-- Pydantic coercion of a plain string into a `date`-typed field:
strict zero-padded ISO `YYYY-MM-DD` form. -/
def pydanticISODate (s : String) : Option CalDate :=
  match splitOnDash s.data with
  | [ys, ms, ds] =>
    match parseNatField ys 4 4, parseNatField ms 2 2, parseNatField ds 2 2 with
    | some y, some m, some d =>
      if validDate y m d then some ⟨y, m, d⟩ else none
    | _, _, _ => none
  | _ => none

/-- Zero-pad a numeral to width 2. -/
def pad2 (n : Nat) : String :=
  if n < 10 then "0" ++ toString n else toString n

/-- Zero-pad a numeral to width 4. -/
def pad4 (n : Nat) : String :=
  if n < 10 then "000" ++ toString n
  else if n < 100 then "00" ++ toString n
  else if n < 1000 then "0" ++ toString n
  else toString n

/-- ISO rendering of a date on the wire (`date` JSON serialization). -/
def renderDateISO (d : CalDate) : String :=
  pad4 d.year ++ "-" ++ pad2 d.month ++ "-" ++ pad2 d.day

/-! ## The Ticket record

`Ticket` embeds the pydantic model of the source: two required string
fields, optional strings, optional `date`s and optional numeric amounts
(floats carry no arithmetic in this program, so they are embedded as
rationals).  `TicketInput` is the raw field mapping as it arrives in a
JSON body, where a date-typed field may hold either an already-structured
calendar date or a plain string still to be coerced. -/

/-- A raw value supplied for a `date`-typed field. -/
inductive DateRaw where
  | date (d : CalDate)
  | text (s : String)
  deriving DecidableEq, Repr

structure Ticket where
  ticket_code : String
  ticket_number : String
  type : Option String := none
  document_status_code : Option String := none
  owner_pcc : Option String := none
  owner_agent : Option String := none
  agent_issue_pcc : Option String := none
  agent_issue_name : Option String := none
  class_ : Option String := none
  pax_name : Option String := none
  itinerary : Option String := none
  ticket_exchange_info : Option String := none
  indicator : Option String := none
  group_name : Option String := none
  issue_date : Option CalDate := none
  currency : Option String := none
  fare : Option Rat := none
  net_fare : Option Rat := none
  taxes : Option Rat := none
  total_fare : Option Rat := none
  comm : Option Rat := none
  cancellation_fee : Option Rat := none
  payable : Option Rat := none
  amount_used : Option Rat := none
  booking_date : Option CalDate := none
  booking_signon : Option String := none
  pnr_code : Option String := none
  tour_code : Option String := none
  claim_amount : Option Rat := none
  date_of_payment : Option CalDate := none
  form_of_payment : Option String := none
  place_of_payment : Option String := none
  remark : Option String := none
  phone : Option String := none
  email : Option String := none
  sold_price : Option Rat := none
  deriving DecidableEq, Repr

/-- The raw field mapping of a request body: identical to `Ticket` except
that the three date-typed fields still hold raw values. -/
structure TicketInput where
  ticket_code : String
  ticket_number : String
  type : Option String := none
  document_status_code : Option String := none
  owner_pcc : Option String := none
  owner_agent : Option String := none
  agent_issue_pcc : Option String := none
  agent_issue_name : Option String := none
  class_ : Option String := none
  pax_name : Option String := none
  itinerary : Option String := none
  ticket_exchange_info : Option String := none
  indicator : Option String := none
  group_name : Option String := none
  issue_date : Option DateRaw := none
  currency : Option String := none
  fare : Option Rat := none
  net_fare : Option Rat := none
  taxes : Option Rat := none
  total_fare : Option Rat := none
  comm : Option Rat := none
  cancellation_fee : Option Rat := none
  payable : Option Rat := none
  amount_used : Option Rat := none
  booking_date : Option DateRaw := none
  booking_signon : Option String := none
  pnr_code : Option String := none
  tour_code : Option String := none
  claim_amount : Option Rat := none
  date_of_payment : Option DateRaw := none
  form_of_payment : Option String := none
  place_of_payment : Option String := none
  remark : Option String := none
  phone : Option String := none
  email : Option String := none
  sold_price : Option Rat := none
  deriving DecidableEq, Repr

/-- A pydantic validation failure, carrying the name of the offending
field and the message of the underlying error. -/
structure ValidationErr where
  field : String
  msg : String
  deriving DecidableEq, Repr

/-- The `parse_issue_date` field validator of the `Ticket` model
(`mode="before"`, attached to `issue_date` only): `None` and structured
dates pass through, a string goes through
`datetime.strptime(value, "%d-%b-%Y")`, any other string raises
`ValueError`. -/
def parse_issue_date : Option DateRaw → Except String (Option CalDate)
  | none => .ok none
  | some (.date d) => .ok (some d)
  | some (.text s) =>
    match strptimeDMonY s with
    | some d => .ok (some d)
    | none => .error "Invalid date format. Expected format: YYYY-MM-DD."

/-- Pydantic default coercion for a `date`-typed field that has no
custom validator (`booking_date`, `date_of_payment`): a structured date
passes through and a string must be strict ISO `YYYY-MM-DD`. -/
def pydanticDateField (fieldName : String) :
    Option DateRaw → Except ValidationErr (Option CalDate)
  | none => .ok none
  | some (.date d) => .ok (some d)
  | some (.text s) =>
    match pydanticISODate s with
    | some d => .ok (some d)
    | none => .error ⟨fieldName, "Input should be a valid date"⟩

/-- Validation of a raw body into a `Ticket`, applying the custom
validator to `issue_date` and the default date coercion to
`booking_date` and `date_of_payment` (in the declaration order of the
pydantic model); every other field passes through unchanged. -/
def validateTicket (inp : TicketInput) : Except ValidationErr Ticket := do
  let issue ←
    match parse_issue_date inp.issue_date with
    | .ok v => .ok v
    | .error m => .error ⟨"issue_date", m⟩
  let booking ← pydanticDateField "booking_date" inp.booking_date
  let payment ← pydanticDateField "date_of_payment" inp.date_of_payment
  .ok
    { ticket_code := inp.ticket_code
      ticket_number := inp.ticket_number
      type := inp.type
      document_status_code := inp.document_status_code
      owner_pcc := inp.owner_pcc
      owner_agent := inp.owner_agent
      agent_issue_pcc := inp.agent_issue_pcc
      agent_issue_name := inp.agent_issue_name
      class_ := inp.class_
      pax_name := inp.pax_name
      itinerary := inp.itinerary
      ticket_exchange_info := inp.ticket_exchange_info
      indicator := inp.indicator
      group_name := inp.group_name
      issue_date := issue
      currency := inp.currency
      fare := inp.fare
      net_fare := inp.net_fare
      taxes := inp.taxes
      total_fare := inp.total_fare
      comm := inp.comm
      cancellation_fee := inp.cancellation_fee
      payable := inp.payable
      amount_used := inp.amount_used
      booking_date := booking
      booking_signon := inp.booking_signon
      pnr_code := inp.pnr_code
      tour_code := inp.tour_code
      claim_amount := inp.claim_amount
      date_of_payment := payment
      form_of_payment := inp.form_of_payment
      place_of_payment := inp.place_of_payment
      remark := inp.remark
      phone := inp.phone
      email := inp.email
      sold_price := inp.sold_price }

/-! ## HTTP errors and the database collaborator

`HTTPError` embeds `fastapi.HTTPException` (status code plus detail).
The relational store is embedded as a list of rows; the spec places the
database outside the system boundary as a collaborator that enforces the
uniqueness of `ticket_number`, so an insert of a duplicate business key
surfaces as a `UniqueViolation` error. -/

structure HTTPError where
  status : Nat
  detail : String
  deriving DecidableEq, Repr

/-- The tickets table. -/
abbrev Store := List Ticket

/-- The business keys currently stored. -/
def numbersOf (store : Store) : List String :=
  store.map (fun t => t.ticket_number)

/-- One `INSERT INTO tickets ... RETURNING *`: fails with a unique
violation if the business key is already present. -/
def dbInsert (store : Store) (t : Ticket) : Except Unit Store :=
  if (numbersOf store).contains t.ticket_number then .error ()
  else .ok (store ++ [t])

/-- The `POST /tickets` handler: a single insert; on any exception the
handler answers 400 "Invalid data provided.".  The route decorator names
no `status_code`, so a successful response carries the framework default
status 200. -/
def create_ticket (store : Store) (t : Ticket) :
    Except HTTPError (Nat × Ticket) × Store :=
  match dbInsert store t with
  | .ok s2 => (.ok (200, t), s2)
  | .error _ => (.error ⟨400, "Invalid data provided."⟩, store)

/-- Sequential inserts of a batch inside one transaction body. -/
def insertAll : Store → List Ticket → Except Unit Store
  | s, [] => .ok s
  | s, t :: ts =>
    match dbInsert s t with
    | .ok s1 => insertAll s1 ts
    | .error e => .error e

/-- Body of a successful bulk-create response. -/
structure BulkResponse where
  message : String
  tickets : List Ticket
  deriving DecidableEq, Repr

/-- The `POST /tickets/bulk` handler: all inserts run inside
`conn.transaction()`, so any failure rolls the store back to its previous
contents; a `UniqueViolationError` is answered with 400 naming the
conflict, success with the count and the returned rows. -/
def create_bulk_tickets (store : Store) (tickets : List Ticket) :
    Except HTTPError BulkResponse × Store :=
  match insertAll store tickets with
  | .ok s2 =>
    (.ok ⟨"Created " ++ toString tickets.length ++ " tickets", tickets⟩, s2)
  | .error _ =>
    (.error ⟨400, "One or more ticket numbers already exist"⟩, store)

/-- The row an `UPDATE` keyed on `ticket_number` produces: every column
except the key itself is overwritten with the supplied values. -/
def applyUpdate (ticket_update : Ticket) (ticket_number : String) : Ticket :=
  { ticket_update with ticket_number := ticket_number }

/-- `UPDATE tickets SET ... WHERE ticket_number = $36`. -/
def updateRows (store : Store) (ticket_number : String) (ticket_update : Ticket) :
    Store :=
  store.map (fun r =>
    if r.ticket_number == ticket_number then applyUpdate ticket_update ticket_number
    else r)

/-- The body of the `try` block of the `PUT /tickets/{ticket_number}`
handler: look the row up, raise `HTTPException(404)` when absent,
otherwise run the `UPDATE` and return the resulting record. -/
def update_ticket_try (store : Store) (ticket_number : String)
    (ticket_update : Ticket) : Except HTTPError ((Nat × Ticket) × Store) :=
  match store.find? (fun r => r.ticket_number == ticket_number) with
  | none => .error ⟨404, "Ticket not found"⟩
  | some _ =>
    .ok ((200, applyUpdate ticket_update ticket_number),
         updateRows store ticket_number ticket_update)

/-- The whole `PUT /tickets/{ticket_number}` handler.  Its
`except Exception` clause also catches the `HTTPException` raised inside
the `try` block (an `HTTPException` is an `Exception`), so every failure
of the body, the 404 included, is re-raised as 500 "Update failed". -/
def update_ticket (store : Store) (ticket_number : String)
    (ticket_update : Ticket) : Except HTTPError (Nat × Ticket) × Store :=
  match update_ticket_try store ticket_number ticket_update with
  | .ok (resp, s2) => (.ok resp, s2)
  | .error _ => (.error ⟨500, "Update failed"⟩, store)

/-- The `DELETE /tickets/{ticket_number}` handler: a keyed `DELETE`,
404 when the command tag reports zero rows, otherwise the framework
default status 200 with an acknowledgment message. -/
def delete_ticket (store : Store) (ticket_number : String) :
    Except HTTPError (Nat × String) × Store :=
  let remaining := store.filter (fun r => !(r.ticket_number == ticket_number))
  if remaining.length == store.length then
    (.error ⟨404, "Ticket not found"⟩, store)
  else
    (.ok (200, "Ticket deleted successfully."), remaining)

/-! ## Search -/

/-- Python truthiness of an optional string parameter: absent and empty
both count as false, which is how `if not any([...])` and the clause
guards of the search handler treat them. -/
def truthyOpt : Option String → Bool
  | none => false
  | some s => !(s == "")

/-- One conjunct appended to the search statement text, with its
out-of-band argument.  The `pnLike` clause records the needle whose
percent-wrapped form `"%" ++ needle ++ "%"` is passed as the `ILIKE`
argument. -/
inductive SearchClause where
  | tnEq (v : String)
  | pnLike (needle : String)
  | pccEq (v : String)
  deriving DecidableEq, Repr

/-- The clause list the handler builds: one clause per truthy parameter,
in the order `ticket_number`, `pax_name`, `agent_issue_pcc`. -/
def buildSearchClauses (ticket_number pax_name agent_issue_pcc : Option String) :
    List SearchClause :=
  (if truthyOpt ticket_number then [.tnEq (ticket_number.getD "")] else []) ++
  (if truthyOpt pax_name then [.pnLike (pax_name.getD "")] else []) ++
  (if truthyOpt agent_issue_pcc then [.pccEq (agent_issue_pcc.getD "")] else [])

/-- Collaborator evaluation of one clause on a row.  A SQL comparison or
`ILIKE` against a NULL column is not true, so a row with a NULL field
never satisfies a clause on that field; `ILIKE` with a percent-wrapped
wildcard-free needle is case-insensitive substring containment. -/
def clauseHolds (t : Ticket) : SearchClause → Bool
  | .tnEq v => t.ticket_number == v
  | .pnLike needle =>
    match t.pax_name with
    | some s => ciContains s needle
    | none => false
  | .pccEq v =>
    match t.agent_issue_pcc with
    | some s => s == v
    | none => false

/-- Conjunction of all clauses (`WHERE 1=1 AND ...`). -/
def rowMatchesAll (t : Ticket) (cs : List SearchClause) : Bool :=
  cs.all (clauseHolds t)

/-- The `GET /tickets/search` handler: 400 when no parameter is truthy,
otherwise the rows satisfying the conjunction of the built clauses. -/
def search_tickets (store : Store)
    (ticket_number pax_name agent_issue_pcc : Option String) :
    Except HTTPError (List Ticket) :=
  if !(truthyOpt ticket_number || truthyOpt pax_name || truthyOpt agent_issue_pcc) then
    .error ⟨400, "At least one search parameter is required."⟩
  else
    .ok (store.filter (fun t =>
      rowMatchesAll t (buildSearchClauses ticket_number pax_name agent_issue_pcc)))

/-! ## The list endpoint -/

/-- The sort keys the route intends to allow. -/
def allowedSortKeys : List String := ["issue_date", "ticket_number", "pax_name"]

/-- The sort directions the route intends to allow. -/
def allowedOrders : List String := ["asc", "desc"]

/-- Lexicographic comparison of character sequences by code point. -/
def charListLe : List Char → List Char → Bool
  | [], _ => true
  | _ :: _, [] => false
  | a :: as, b :: bs =>
    if a.toNat < b.toNat then true
    else if b.toNat < a.toNat then false
    else charListLe as bs

/-- String comparison as the collaborator orders text columns. -/
def strLeB (a b : String) : Bool := charListLe a.data b.data

/-- Lexicographic comparison of calendar dates. -/
def dateLeB (a b : CalDate) : Bool :=
  if a.year == b.year then
    if a.month == b.month then a.day ≤ b.day else a.month ≤ b.month
  else a.year ≤ b.year

/-- Ascending comparison of an optional column, NULLs last (the
collaborator default for ascending order). -/
def optLeB (le : α → α → Bool) : Option α → Option α → Bool
  | none, none => true
  | none, some _ => false
  | some _, none => true
  | some a, some b => le a b

/-- Ascending row comparison for one of the allowed sort keys. -/
def keyLeAsc : String → Ticket → Ticket → Bool
  | "issue_date" => fun a b => optLeB dateLeB a.issue_date b.issue_date
  | "ticket_number" => fun a b => strLeB a.ticket_number b.ticket_number
  | "pax_name" => fun a b => optLeB strLeB a.pax_name b.pax_name
  | _ => fun _ _ => true

/-- Row comparison for a key and a direction: descending order is the
reverse of ascending order (which puts NULLs first, the collaborator
default for descending order). -/
def ticketLe (sort_by ord : String) (a b : Ticket) : Bool :=
  if ord == "desc" then keyLeAsc sort_by b a else keyLeAsc sort_by a b

/-- Insert into a sorted list. -/
def insertSortedBy (le : Ticket → Ticket → Bool) (t : Ticket) :
    List Ticket → List Ticket
  | [] => [t]
  | x :: xs => if le t x then t :: x :: xs else x :: insertSortedBy le t xs

/-- Insertion sort of the rows. -/
def sortRowsBy (le : Ticket → Ticket → Bool) : List Ticket → List Ticket
  | [] => []
  | x :: xs => insertSortedBy le x (sortRowsBy le xs)

/-- The full table in the requested sort order. -/
def sortRows (store : Store) (sort_by ord : String) : List Ticket :=
  sortRowsBy (ticketLe sort_by ord) store

/-- The statement text the handler builds with an f-string: the caller
supplied `sort_by` and `order` values are interpolated verbatim into the
`ORDER BY` clause, while `LIMIT` and `OFFSET` travel out-of-band. -/
def getTicketsQueryText (sort_by ord : String) : String :=
  "SELECT * FROM tickets ORDER BY " ++ sort_by ++ " " ++ ord ++
  " LIMIT $1 OFFSET $2"

/-- Collaborator execution of the list statement: a statement whose
`ORDER BY` names an unknown column or direction, or whose `LIMIT` or
`OFFSET` argument is negative, fails; otherwise it yields the slice of
the sorted rows selected by `LIMIT`/`OFFSET`. -/
def dbSelectOrdered (store : Store) (sort_by ord : String)
    (limit offset : Int) : Except Unit (List Ticket) :=
  if allowedSortKeys.contains sort_by && allowedOrders.contains ord &&
      decide (0 ≤ limit) && decide (0 ≤ offset) then
    .ok (((sortRows store sort_by ord).drop offset.toNat).take limit.toNat)
  else
    .error ()

/-- Query parameters of `GET /tickets` with their declared defaults. -/
structure ListParams where
  page : Int := 1
  limit : Int := 10
  sort_by : String := "issue_date"
  order : String := "asc"
  deriving DecidableEq, Repr

/-- The request validation the framework actually enforces for the list
endpoint: `page` is declared `Query(default=1, gt=0)` and `limit`
`Query(default=10, le=100)`, both enforced constraints, while the `enum`
keyword passed for `sort_by` and `order` is an extra that is only
serialized into the OpenAPI schema and is never checked at request time,
so any string value reaches the handler. -/
def fastapiListParamsOk (p : ListParams) : Bool :=
  decide (0 < p.page) && decide (p.limit ≤ 100)

/-- The `GET /tickets` handler: framework parameter validation (422 on
violation), then `offset = (page - 1) * limit`, then the interpolated
statement runs against the collaborator; a statement failure is caught
and answered as 500. -/
def get_tickets (store : Store) (p : ListParams) :
    Except HTTPError (List Ticket) :=
  if !(fastapiListParamsOk p) then
    .error ⟨422, "Unprocessable Entity"⟩
  else
    let offset := (p.page - 1) * p.limit
    match dbSelectOrdered store p.sort_by p.order p.limit offset with
    | .ok rows => .ok rows
    | .error _ => .error ⟨500, "Internal server error"⟩

/-! ## Get by date, health check -/

/-- The `GET /tickets/{date}` handler: parse the path parameter with
`strptime("%Y-%m-%d")`, 400 on failure, otherwise the rows whose
`issue_date` equals it. -/
def get_tickets_by_date (store : Store) (ds : String) :
    Except HTTPError (List Ticket) :=
  match strptimeYMD ds with
  | none => .error ⟨400, "Invalid date format. Use DD-MM-YYYY"⟩
  | some d => .ok (store.filter (fun t => t.issue_date == some d))

/-- The application settings loaded from the environment. -/
structure Settings where
  DATABASE_URL : String
  API_KEY : String
  ENVIRONMENT : String := "development"
  ALLOWED_ORIGINS : List String := ["*"]
  deriving DecidableEq, Repr

/-- Python dict insertion: an existing key keeps its position and gets
the new value, a new key is appended. -/
def dictInsert : List (String × String) → String → String → List (String × String)
  | [], k, v => [(k, v)]
  | (k0, v0) :: rest, k, v =>
    if k0 == k then (k0, v) :: rest else (k0, v0) :: dictInsert rest k v

/-- The mapping denoted by a Python dict literal: entries inserted left
to right, a repeated key overwriting the earlier value. -/
def dictOf (entries : List (String × String)) : List (String × String) :=
  entries.foldl (fun d kv => dictInsert d kv.1 kv.2) []

/-- The body the health check returns on success.  The dict literal in
the source names the "database" key twice — once with "connected", once
with `settings.DATABASE_URL` — so the later entry wins and the raw
connection string is what the response carries. -/
def health_check_body (s : Settings) : List (String × String) :=
  dictOf
    [("status", "healthy"),
     ("database", "connected"),
     ("environment", s.ENVIRONMENT),
     ("database", s.DATABASE_URL)]

/-- The `GET /health` handler: a trivial round-trip to the store, 503
when it fails, the body above when it succeeds. -/
def health_check (s : Settings) (dbReachable : Bool) :
    Except HTTPError (List (String × String)) :=
  if dbReachable then .ok (health_check_body s)
  else .error ⟨503, "Service Unavailable."⟩

/-- Whether the `/health` route carries the API-key dependency: its
decorator names no dependencies, so the route is open to unauthenticated
callers. -/
def healthRouteAuthRequired : Bool := false

/-! ## Rate limiter and middleware pipeline

`requests_store` is a `defaultdict(list)` mapping a client address to the
timestamps of its admitted requests; it is embedded as an association
list with `[]` as the default value.  Wall-clock instants (`time.time()`
values) are embedded as integers, which preserves every comparison the
code performs. -/

/-- Configured ceiling: 100 requests. -/
def RATE_LIMIT : Nat := 100

/-- Configured window: 60 seconds. -/
def TIME_WINDOW : Int := 60

/-- The `requests_store` mapping. -/
abbrev RequestsStore := List (String × List Int)

/-- Read a client entry, defaulting to the empty list (`defaultdict`). -/
def storeGet : RequestsStore → String → List Int
  | [], _ => []
  | (k, v) :: rest, ip => if k == ip then v else storeGet rest ip

/-- Assign a client entry (`requests_store[client_ip] = ...`). -/
def storeSet : RequestsStore → String → List Int → RequestsStore
  | [], ip, v => [(ip, v)]
  | (k, w) :: rest, ip, v =>
    if k == ip then (k, v) :: rest else (k, w) :: storeSet rest ip v

/-- One run of the `rate_limit_middleware` function body for a request
from `client_ip` at instant `now`: prune the client entry to the
timestamps younger than the window, store the pruned entry, reject with
429 when the pruned count has reached the ceiling (leaving the rejected
instant unrecorded), otherwise record `now` and admit.  Returns the
admission verdict and the resulting `requests_store`. -/
def rate_limit_middleware (s : RequestsStore) (client_ip : String) (now : Int) :
    Bool × RequestsStore :=
  let pruned := (storeGet s client_ip).filter (fun t => now - t < TIME_WINDOW)
  let s1 := storeSet s client_ip pruned
  if RATE_LIMIT ≤ pruned.length then (false, s1)
  else (true, storeSet s1 client_ip (pruned ++ [now]))

/-- A middleware as a state transformer on `requests_store`: verdict
(admitted or short-circuited) and resulting store. -/
abbrev Middleware := RequestsStore → String → Int → Bool × RequestsStore

/-- The `log_requests` middleware (registered with
`@app.middleware("http")`): it measures and logs, touching neither the
verdict nor `requests_store`. -/
def log_requests : Middleware := fun s _ _ => (true, s)

/-- The `add_request_id` middleware (registered with
`@app.middleware("http")`): it tags the request and response with a
fresh identifier, touching neither the verdict nor `requests_store`. -/
def add_request_id : Middleware := fun s _ _ => (true, s)

/-- The middleware chain the source actually registers.  Only
`log_requests` and `add_request_id` carry the `@app.middleware("http")`
decorator; the `rate_limit_middleware` function is defined at module
level but never decorated and never passed to `add_middleware`, so it is
absent from this chain. -/
def registeredMiddlewares : List Middleware := [log_requests, add_request_id]

/-- Run a middleware chain on one request. -/
def runMiddlewares : List Middleware → RequestsStore → String → Int →
    Bool × RequestsStore
  | [], s, _, _ => (true, s)
  | m :: ms, s, ip, now =>
    let r := m s ip now
    if r.1 then runMiddlewares ms r.2 ip now else (false, r.2)

/-- Processing of one inbound request by the application pipeline as
registered. -/
def app_handle_request : Middleware := fun s ip now =>
  runMiddlewares registeredMiddlewares s ip now

/-- Feed a sequence of requests (client, instant) through a middleware,
collecting the admission verdicts and threading the store. -/
def simulateSeq (step : Middleware) :
    RequestsStore → List (String × Int) → List Bool × RequestsStore
  | s, [] => ([], s)
  | s, (ip, now) :: rest =>
    let r := step s ip now
    let out := simulateSeq step r.2 rest
    (r.1 :: out.1, out.2)

/-! ## Sample data used by concrete evaluations -/

/-- A stored row. -/
def sampleTicket : Ticket := { ticket_code := "T1", ticket_number := "100" }

/-- A full replacement body (its own `ticket_number` differs from the
path key, as the handler ignores the body's key). -/
def sampleUpdate : Ticket :=
  { ticket_code := "T2", ticket_number := "999",
    pax_name := some "Jane Doe", fare := some 500 }

/-- The request body of the example scenario. -/
def scenarioInput : TicketInput :=
  { ticket_code := "T1", ticket_number := "100",
    issue_date := some (.text "01-Jan-2024"), fare := some 500 }

/-- The validated record of the example scenario. -/
def scenarioTicket : Ticket :=
  { ticket_code := "T1", ticket_number := "100",
    issue_date := some ⟨2024, 1, 1⟩, fare := some 500 }

/-- A sort key far outside the allow-list. -/
def injectedSortBy : String := "ticket_number; DROP TABLE tickets --"

set_option maxRecDepth 10000

/-! ## Claims -/

/-- C1: the claim asserts that the rate-limiter check runs before any
further processing of every inbound request, admitting 100 requests of a
client per 60-second window, rejecting the 101st with 429 without
recording it, and admitting again after the window has passed.  The
registered pipeline contains no rate limiting — `rate_limit_middleware`
is never decorated or registered — so the application admits all 101
requests of a single client issued at one instant and `requests_store`
stays empty (first conjunct), even though the middleware function itself,
had it been registered, would have admitted exactly the first 100,
rejected the 101st leaving 100 recorded timestamps, and admitted a
request arriving a full window later (remaining conjuncts). -/
theorem C1_rate_limiter_never_runs :
    simulateSeq app_handle_request [] (List.replicate 101 ("1.2.3.4", (0 : Int)))
      = (List.replicate 101 true, [])
  ∧ (simulateSeq rate_limit_middleware [] (List.replicate 101 ("1.2.3.4", (0 : Int)))).1
      = List.replicate 100 true ++ [false]
  ∧ (storeGet (simulateSeq rate_limit_middleware []
        (List.replicate 101 ("1.2.3.4", (0 : Int)))).2 "1.2.3.4").length = 100
  ∧ (rate_limit_middleware (simulateSeq rate_limit_middleware []
        (List.replicate 101 ("1.2.3.4", (0 : Int)))).2 "1.2.3.4" 60).1 = true := by
  refine ⟨?_, ?_, ?_, ?_⟩ <;> decide

/-- C2: the claim asserts that the sort key of `GET /tickets` is
validated against the allow-list before being placed in the statement
text and that a value outside the allow-list is rejected with a client
error and never appears in the executed statement.  The `enum` keyword
the route passes to `Query` is only serialized into the OpenAPI schema
and is not enforced, so a value far outside the allow-list passes request
validation, is interpolated verbatim into the `ORDER BY` clause of the
executed statement, and the handler answers 500 after the statement
fails — not a client-error rejection. -/
theorem C2_sort_key_reaches_statement_text :
    fastapiListParamsOk { sort_by := injectedSortBy } = true
  ∧ allowedSortKeys.contains injectedSortBy = false
  ∧ strContains (getTicketsQueryText injectedSortBy "asc") injectedSortBy = true
  ∧ get_tickets [sampleTicket] { sort_by := injectedSortBy }
      = .error ⟨500, "Internal server error"⟩ := by
  refine ⟨?_, ?_, ?_, ?_⟩ <;> decide

/-- C3: the claim asserts that updating a nonexistent `ticket_number`
fails with 404 and updating an existing one overwrites every field and
returns the record with 200.  The `try` body does raise
`HTTPException(404)` for a missing key, but the handler's
`except Exception` clause catches that very exception and answers
500 "Update failed" instead, so the caller never sees the 404; the
existing-key path does overwrite every field (the key itself staying the
path value) and answers 200. -/
theorem C3_update_missing_key_answers_500 :
    update_ticket_try [sampleTicket] "777" sampleUpdate
      = .error ⟨404, "Ticket not found"⟩
  ∧ update_ticket [sampleTicket] "777" sampleUpdate
      = (.error ⟨500, "Update failed"⟩, [sampleTicket])
  ∧ update_ticket [sampleTicket] "100" sampleUpdate
      = (.ok (200, { sampleUpdate with ticket_number := "100" }),
         [{ sampleUpdate with ticket_number := "100" }]) := by
  refine ⟨?_, ?_, ?_⟩ <;> decide

/-- C6: the claim asserts the example scenario answers the creation with
status 201.  The `POST /tickets` route names no `status_code`, so the
creation answers with the framework default 200; every other step of the
scenario behaves as claimed: the body's `issue_date` is parsed from
"01-Jan-2024" and rendered back as "2024-01-01", the get-by-date call
returns the stored record, the deletion answers 200, and the final
get-by-date call returns the empty array. -/
theorem C6_scenario_creation_status_is_200 :
    validateTicket scenarioInput = .ok scenarioTicket
  ∧ create_ticket [] scenarioTicket = (.ok (200, scenarioTicket), [scenarioTicket])
  ∧ scenarioTicket.issue_date.map renderDateISO = some "2024-01-01"
  ∧ get_tickets_by_date [scenarioTicket] "2024-01-01" = .ok [scenarioTicket]
  ∧ delete_ticket [scenarioTicket] "100"
      = (.ok (200, "Ticket deleted successfully."), [])
  ∧ get_tickets_by_date [] "2024-01-01" = .ok [] := by
  refine ⟨?_, ?_, ?_, ?_, ?_, ?_⟩ <;> decide

/-- A body whose only unusual field is `booking_date` in the textual
day-abbreviatedMonth-year form. -/
def bookingTextualInput : TicketInput :=
  { ticket_code := "T1", ticket_number := "100",
    booking_date := some (.text "01-Jan-2024") }

/-- C4 counterexample: the claim asserts that each of `issue_date`,
`booking_date` and `date_of_payment` accepts the "01-Jan-2024" textual
form and normalizes it.  The `parse_issue_date` validator is attached to
`issue_date` only, so a body carrying `booking_date = "01-Jan-2024"`
fails validation with an error naming `booking_date` instead of being
accepted. -/
theorem C4_booking_date_rejects_textual_form :
    validateTicket bookingTextualInput
      = .error ⟨"booking_date", "Input should be a valid date"⟩ := by
  decide

/-- C4 (amended): only `issue_date` accepts the day-abbreviatedMonth-year
textual form: its validator passes structured dates through, normalizes a
string matching `%d-%b-%Y` and fails on any other string, the failure
surfacing from `validateTicket` named `issue_date`; `booking_date` and
`date_of_payment` pass structured dates through, accept only ISO
`YYYY-MM-DD` strings and fail on any other string with an error naming
the field — in particular "01-Jan-2024" parses under the former format
and not under the latter, and a body whose `issue_date` is "01-Jan-2024"
validates to the record carrying the normalized date. -/
theorem C4_amended_only_issue_date_accepts_textual_form :
    (∀ d, parse_issue_date (some (.date d)) = .ok (some d))
  ∧ (∀ s d, strptimeDMonY s = some d →
       parse_issue_date (some (.text s)) = .ok (some d))
  ∧ (∀ s, strptimeDMonY s = none →
       parse_issue_date (some (.text s))
         = .error "Invalid date format. Expected format: YYYY-MM-DD.")
  ∧ (∀ inp : TicketInput, ∀ s, inp.issue_date = some (.text s) →
       strptimeDMonY s = none →
       validateTicket inp = .error
         ⟨"issue_date", "Invalid date format. Expected format: YYYY-MM-DD."⟩)
  ∧ (∀ name d, pydanticDateField name (some (.date d)) = .ok (some d))
  ∧ (∀ name s d, pydanticISODate s = some d →
       pydanticDateField name (some (.text s)) = .ok (some d))
  ∧ (∀ name s, pydanticISODate s = none →
       pydanticDateField name (some (.text s))
         = .error ⟨name, "Input should be a valid date"⟩)
  ∧ (∀ inp : TicketInput, ∀ s, inp.issue_date = none →
       inp.booking_date = some (.text s) → pydanticISODate s = none →
       validateTicket inp = .error ⟨"booking_date", "Input should be a valid date"⟩)
  ∧ strptimeDMonY "01-Jan-2024" = some ⟨2024, 1, 1⟩
  ∧ pydanticISODate "01-Jan-2024" = none
  ∧ (∀ inp : TicketInput, inp.issue_date = some (.text "01-Jan-2024") →
       inp.booking_date = none → inp.date_of_payment = none →
       ∃ t, validateTicket inp = .ok t ∧ t.issue_date = some ⟨2024, 1, 1⟩) := by
  refine ⟨fun d => rfl, ?_, ?_, ?_, fun name d => rfl, ?_, ?_, ?_, by decide, by decide, ?_⟩
  · intro s d h
    simp [parse_issue_date, h]
  · intro s h
    simp [parse_issue_date, h]
  · intro inp s h1 h2
    simp [validateTicket, parse_issue_date, h1, h2, Bind.bind, Except.bind]
  · intro name s d h
    simp [pydanticDateField, h]
  · intro name s h
    simp [pydanticDateField, h]
  · intro inp s h1 h2 h3
    simp [validateTicket, parse_issue_date, pydanticDateField, h1, h2, h3,
      Bind.bind, Except.bind]
  · intro inp h1 h2 h3
    have hs : strptimeDMonY "01-Jan-2024" = some ⟨2024, 1, 1⟩ := by decide
    simp only [validateTicket, parse_issue_date, pydanticDateField, h1, h2, h3,
      hs, Bind.bind, Except.bind]
    exact ⟨_, rfl, rfl⟩

/-! ## Bulk create lemmas -/

theorem numbersOf_append (s1 s2 : Store) :
    numbersOf (s1 ++ s2) = numbersOf s1 ++ numbersOf s2 := by
  simp [numbersOf]

/-- When the combined business keys are pairwise distinct, every insert
of the batch succeeds and the batch lands at the end of the table. -/
theorem insertAll_ok_of_nodup (ts : List Ticket) : ∀ s : Store,
    (numbersOf (s ++ ts)).Nodup → insertAll s ts = .ok (s ++ ts) := by
  induction ts with
  | nil => intro s _; simp [insertAll]
  | cons t ts ih =>
    intro s h
    have hm : t.ticket_number ∉ numbersOf s := by
      rw [numbersOf_append] at h
      have hd := (List.nodup_append.mp h).2.2
      intro hc
      exact hd hc (by simp [numbersOf])
    have hc : (numbersOf s).contains t.ticket_number = false := by simpa using hm
    have h2 : (numbersOf ((s ++ [t]) ++ ts)).Nodup := by
      rw [← List.append_cons]; exact h
    simp only [insertAll, dbInsert, hc, Bool.false_eq_true, if_false]
    rw [ih (s ++ [t]) h2, ← List.append_cons]

/-- When some business key of the batch collides — with the table or
within the batch — one of the inserts raises a unique violation. -/
theorem insertAll_error_of_dup (ts : List Ticket) : ∀ s : Store,
    (numbersOf s).Nodup → ¬ (numbersOf (s ++ ts)).Nodup →
      insertAll s ts = .error () := by
  induction ts with
  | nil => intro s hs h; rw [List.append_nil] at h; exact absurd hs h
  | cons t ts ih =>
    intro s hs h
    by_cases hm : t.ticket_number ∈ numbersOf s
    · have hc : (numbersOf s).contains t.ticket_number = true := by simpa using hm
      simp [insertAll, dbInsert, hc, hm]
    · have hc : (numbersOf s).contains t.ticket_number = false := by simpa using hm
      have hs2 : (numbersOf (s ++ [t])).Nodup := by
        rw [numbersOf_append]
        rw [List.nodup_append]
        refine ⟨hs, by simp [numbersOf], ?_⟩
        intro a ha hb
        simp [numbersOf] at hb
        exact hm (hb ▸ ha)
      have h2 : ¬ (numbersOf ((s ++ [t]) ++ ts)).Nodup := by
        rw [← List.append_cons]; exact h
      simp only [insertAll, dbInsert, hc, Bool.false_eq_true, if_false]
      exact ih (s ++ [t]) hs2 h2

/-- C5: bulk create is all-or-nothing.  Over a table whose business keys
are pairwise distinct (the collaborator invariant), a batch containing
any uniqueness violation leaves the table exactly as it was and is
answered with the client error naming the conflict, while a batch free of
violations makes every row visible and is answered with the count and the
full stored records; no partial outcome exists. -/
theorem C5_bulk_create_all_or_nothing (store : Store) (ts : List Ticket)
    (hs : (numbersOf store).Nodup) :
    (¬ (numbersOf (store ++ ts)).Nodup →
       create_bulk_tickets store ts
         = (.error ⟨400, "One or more ticket numbers already exist"⟩, store))
  ∧ ((numbersOf (store ++ ts)).Nodup →
       create_bulk_tickets store ts
         = (.ok ⟨"Created " ++ toString ts.length ++ " tickets", ts⟩,
            store ++ ts)) := by
  constructor
  · intro h
    rw [create_bulk_tickets, insertAll_error_of_dup ts store hs h]
  · intro h
    rw [create_bulk_tickets, insertAll_ok_of_nodup ts store h]

/-- C5 witness: a batch repeating the stored business key "100" is
rejected wholesale, the table keeping its single row. -/
theorem C5_bulk_create_witness :
    create_bulk_tickets [sampleTicket] [sampleTicket]
      = (.error ⟨400, "One or more ticket numbers already exist"⟩,
         [sampleTicket]) :=
  (C5_bulk_create_all_or_nothing [sampleTicket] [sampleTicket]
    (by decide)).1 (by decide)

/-- C4 witness: the body of the example scenario, whose `issue_date`
carries the textual form "01-Jan-2024", validates to a record holding the
normalized calendar date. -/
theorem C4_amended_witness :
    ∃ t, validateTicket scenarioInput = .ok t
      ∧ t.issue_date = some ⟨2024, 1, 1⟩ :=
  C4_amended_only_issue_date_accepts_textual_form.2.2.2.2.2.2.2.2.2.2
    scenarioInput rfl rfl rfl

/-- C7: a search request in which none of the three filter parameters is
truthy is answered with the 400 client error and never with a list (empty
or otherwise); when at least one filter is truthy the result is exactly
the rows satisfying the conjunction of the supplied filters, `pax_name`
matched as a case-insensitive substring and `ticket_number` and
`agent_issue_pcc` matched exactly (a NULL column satisfying no
filter). -/
theorem C7_search_requires_a_filter (store : Store)
    (tn pn pcc : Option String) :
    ((truthyOpt tn || truthyOpt pn || truthyOpt pcc) = false →
       search_tickets store tn pn pcc
         = .error ⟨400, "At least one search parameter is required."⟩
       ∧ ∀ l, search_tickets store tn pn pcc ≠ .ok l)
  ∧ ((truthyOpt tn || truthyOpt pn || truthyOpt pcc) = true →
       search_tickets store tn pn pcc = .ok (store.filter (fun t =>
         (!truthyOpt tn || t.ticket_number == tn.getD "")
         && (!truthyOpt pn || (match t.pax_name with
             | some s => ciContains s (pn.getD "")
             | none => false))
         && (!truthyOpt pcc || (match t.agent_issue_pcc with
             | some s => s == pcc.getD ""
             | none => false))))) := by
  constructor
  · intro h
    refine ⟨by simp [search_tickets, h], ?_⟩
    intro l hne
    rw [search_tickets] at hne
    simp [h] at hne
  · intro h
    have hpt : ∀ t : Ticket,
        rowMatchesAll t (buildSearchClauses tn pn pcc) =
        ((!truthyOpt tn || t.ticket_number == tn.getD "")
         && (!truthyOpt pn || (match t.pax_name with
             | some s => ciContains s (pn.getD "")
             | none => false))
         && (!truthyOpt pcc || (match t.agent_issue_pcc with
             | some s => s == pcc.getD ""
             | none => false))) := by
      intro t
      cases htn : truthyOpt tn <;> cases hpn : truthyOpt pn <;>
        cases hpcc : truthyOpt pcc <;>
        simp [buildSearchClauses, rowMatchesAll, clauseHolds, htn, hpn, hpcc,
          Bool.and_assoc]
    rw [search_tickets]
    simp only [h, Bool.not_true, Bool.false_eq_true, if_false]
    rw [List.filter_congr (fun t _ => hpt t)]

/-- C7 witness: searching the one-row table by a `pax_name` fragment of a
different letter case returns the row. -/
theorem C7_search_witness :
    search_tickets [sampleUpdate] none (some "ANE D") none
      = .ok [sampleUpdate] :=
  (C7_search_requires_a_filter [sampleUpdate] none (some "ANE D") none).2
    (by decide)

/-- C8: list pagination.  For a valid list request with `page ≥ 1` and
`0 ≤ limit ≤ 100` (and a sort key and direction in the enumerations), the
handler returns the slice of the sort order starting `(page-1)*limit`
rows in and at most `limit` rows long, whose i-th record is the
`(page-1)*limit + i`-th record of the sort order; a request with a limit
above 100 is rejected by request validation with a client error; and any
successful response carries at most 100 records. -/
theorem C8_pagination (store : Store) :
    (∀ p : ListParams, 1 ≤ p.page → 0 ≤ p.limit → p.limit ≤ 100 →
       p.sort_by ∈ allowedSortKeys → p.order ∈ allowedOrders →
       get_tickets store p
         = .ok (((sortRows store p.sort_by p.order).drop
             (((p.page - 1) * p.limit).toNat)).take p.limit.toNat)
       ∧ ∀ i : Nat, i < p.limit.toNat →
           (((sortRows store p.sort_by p.order).drop
               (((p.page - 1) * p.limit).toNat)).take p.limit.toNat)[i]?
             = (sortRows store p.sort_by
                 p.order)[((p.page - 1) * p.limit).toNat + i]?)
  ∧ (∀ p : ListParams, 100 < p.limit →
       get_tickets store p = .error ⟨422, "Unprocessable Entity"⟩)
  ∧ (∀ (p : ListParams) (rows : List Ticket),
       get_tickets store p = .ok rows → rows.length ≤ 100) := by
  refine ⟨?_, ?_, ?_⟩
  · intro p h1 h2 h3 h4 h5
    have hok : fastapiListParamsOk p = true := by
      simp only [fastapiListParamsOk, Bool.and_eq_true, decide_eq_true_eq]
      omega
    have hoff : 0 ≤ (p.page - 1) * p.limit := by
      have h0 : 0 ≤ p.page - 1 := by omega
      exact mul_nonneg h0 h2
    have hc1 : allowedSortKeys.contains p.sort_by = true := by simpa using h4
    have hc2 : allowedOrders.contains p.order = true := by simpa using h5
    have hcond : (allowedSortKeys.contains p.sort_by &&
        allowedOrders.contains p.order && decide (0 ≤ p.limit) &&
        decide (0 ≤ (p.page - 1) * p.limit)) = true := by
      rw [hc1, hc2, decide_eq_true h2, decide_eq_true hoff]; rfl
    constructor
    · rw [get_tickets]
      simp only [hok, Bool.not_true, Bool.false_eq_true, if_false]
      rw [dbSelectOrdered, if_pos hcond]
    · intro i hi
      rw [List.getElem?_take_of_lt hi, List.getElem?_drop]
  · intro p h
    have hbad : fastapiListParamsOk p = false := by
      simp only [fastapiListParamsOk, Bool.and_eq_false_iff,
        decide_eq_false_iff_not]
      right; omega
    rw [get_tickets]
    simp [hbad]
  · intro p rows h
    rw [get_tickets] at h
    by_cases hv : fastapiListParamsOk p = true
    · have hlim : p.limit ≤ 100 := by
        simp only [fastapiListParamsOk, Bool.and_eq_true,
          decide_eq_true_eq] at hv
        exact hv.2
      rw [hv] at h
      simp only [Bool.not_true, Bool.false_eq_true, if_false] at h
      rw [dbSelectOrdered] at h
      by_cases hcond : (allowedSortKeys.contains p.sort_by &&
          allowedOrders.contains p.order && decide (0 ≤ p.limit) &&
          decide (0 ≤ (p.page - 1) * p.limit)) = true
      · rw [if_pos hcond] at h
        injection h with h2
        rw [← h2]
        have hl : p.limit.toNat ≤ 100 := by omega
        exact le_trans (List.length_take_le _ _) hl
      · rw [if_neg hcond] at h
        simp at h
    · have hvf : fastapiListParamsOk p = false := by
        revert hv; cases fastapiListParamsOk p <;> simp
      rw [hvf] at h
      simp at h

/-- C8 witness: over a two-row table sorted by `ticket_number` ascending,
page 2 with limit 1 returns exactly the second row of the sort order. -/
theorem C8_pagination_witness :
    get_tickets [sampleTicket, sampleUpdate]
      { page := 2, limit := 1, sort_by := "ticket_number", order := "asc" }
      = .ok [sampleUpdate] := by
  have h := ((C8_pagination [sampleTicket, sampleUpdate]).1
    { page := 2, limit := 1, sort_by := "ticket_number", order := "asc" }
    (by decide) (by decide) (by decide) (by decide) (by decide)).1
  rw [h]
  decide

/-! ## Rate limiter window lemmas -/

theorem storeGet_storeSet_self (ip : String) (v : List Int) :
    ∀ s : RequestsStore, storeGet (storeSet s ip v) ip = v := by
  intro s
  induction s with
  | nil => simp [storeSet, storeGet]
  | cons kv rest ih =>
    obtain ⟨k, w⟩ := kv
    by_cases h : (k == ip) = true
    · simp [storeSet, storeGet, h]
    · have h2 : (k == ip) = false := by revert h; cases k == ip <;> simp
      simp [storeSet, storeGet, h2, ih]

theorem storeGet_storeSet_ne (ip ip2 : String) (v : List Int)
    (hne : ip2 ≠ ip) :
    ∀ s : RequestsStore, storeGet (storeSet s ip v) ip2 = storeGet s ip2 := by
  intro s
  have hip : (ip == ip2) = false := by
    simp only [beq_eq_false_iff_ne]
    exact fun he => hne he.symm
  induction s with
  | nil => simp [storeSet, storeGet, hip]
  | cons kv rest ih =>
    obtain ⟨k, w⟩ := kv
    by_cases h : (k == ip) = true
    · have hk : k = ip := by simpa using h
      simp [storeSet, storeGet, h, hk, hip]
    · have h2 : (k == ip) = false := by revert h; cases k == ip <;> simp
      simp only [storeSet, storeGet, h2, Bool.false_eq_true, if_false]
      rw [ih]

/-- C9: after any run of the rate-limiter body for a client at instant
`now`, that client's stored window holds only timestamps younger than the
window duration; when the request is admitted the window length stays
within the configured ceiling; and every other client's window is left
untouched. -/
theorem C9_rate_limiter_window_invariants (s : RequestsStore)
    (client_ip : String) (now : Int) :
    (∀ t ∈ storeGet (rate_limit_middleware s client_ip now).2 client_ip,
        now - t < TIME_WINDOW)
  ∧ ((rate_limit_middleware s client_ip now).1 = true →
        (storeGet (rate_limit_middleware s client_ip now).2 client_ip).length
          ≤ RATE_LIMIT)
  ∧ (∀ ip2, ip2 ≠ client_ip →
        storeGet (rate_limit_middleware s client_ip now).2 ip2
          = storeGet s ip2) := by
  simp only [rate_limit_middleware]
  by_cases hle : RATE_LIMIT ≤ ((storeGet s client_ip).filter
      (fun t => decide (now - t < TIME_WINDOW))).length
  · rw [if_pos hle]
    refine ⟨?_, ?_, ?_⟩
    · intro t ht
      rw [storeGet_storeSet_self] at ht
      have := List.mem_filter.mp ht
      exact of_decide_eq_true this.2
    · intro h; simp at h
    · intro ip2 h2
      rw [storeGet_storeSet_ne _ _ _ h2]
  · rw [if_neg hle]
    refine ⟨?_, ?_, ?_⟩
    · intro t ht
      rw [storeGet_storeSet_self] at ht
      rcases List.mem_append.mp ht with hin | hone
      · exact of_decide_eq_true (List.mem_filter.mp hin).2
      · have : t = now := by simpa using hone
        subst this
        simp [TIME_WINDOW]
    · intro _
      rw [storeGet_storeSet_self]
      have hlt : ((storeGet s client_ip).filter
          (fun t => decide (now - t < TIME_WINDOW))).length < RATE_LIMIT :=
        Nat.lt_of_not_le hle
      simp only [List.length_append, List.length_cons, List.length_nil]
      omega
    · intro ip2 h2
      rw [storeGet_storeSet_ne _ _ _ h2, storeGet_storeSet_ne _ _ _ h2]

/-- C9 witness: a request from client "a" leaves the window of client "b"
exactly as it was. -/
theorem C9_rate_limiter_witness :
    storeGet (rate_limit_middleware [("a", [3]), ("b", [7])] "a" 10).2 "b"
      = [7] :=
  (C9_rate_limiter_window_invariants [("a", [3]), ("b", [7])] "a" 10).2.2
    "b" (by decide)

/-- C10: the health check body carries the raw configured connection
string under its "database" key (the dict literal names the key twice and
the later entry wins), the route requires no authentication, and two runs
differing in `DATABASE_URL` produce observably different public
responses. -/
theorem C10_health_check_leaks_database_url (s1 s2 : Settings) :
    health_check_body s1
      = [("status", "healthy"), ("database", s1.DATABASE_URL),
         ("environment", s1.ENVIRONMENT)]
  ∧ List.lookup "database" (health_check_body s1) = some s1.DATABASE_URL
  ∧ healthRouteAuthRequired = false
  ∧ health_check s1 true = .ok (health_check_body s1)
  ∧ (s1.DATABASE_URL ≠ s2.DATABASE_URL →
       health_check s1 true ≠ health_check s2 true) := by
  have hb : ∀ s : Settings, health_check_body s
      = [("status", "healthy"), ("database", s.DATABASE_URL),
         ("environment", s.ENVIRONMENT)] := fun s => rfl
  refine ⟨hb s1, by rw [hb s1]; rfl, rfl, rfl, ?_⟩
  intro hne heq
  simp only [health_check, if_true] at heq
  rw [Except.ok.injEq, hb s1, hb s2] at heq
  simp only [List.cons.injEq, Prod.mk.injEq] at heq
  exact hne heq.2.1.2

/-- C10 witness: two configurations equal in everything but the
connection string yield different health responses. -/
theorem C10_health_check_witness :
    health_check ⟨"postgres://db-one", "key", "development", ["*"]⟩ true
      ≠ health_check ⟨"postgres://db-two", "key", "development", ["*"]⟩ true :=
  (C10_health_check_leaks_database_url
    ⟨"postgres://db-one", "key", "development", ["*"]⟩
    ⟨"postgres://db-two", "key", "development", ["*"]⟩).2.2.2.2 (by decide)

end TicketApi
